import Mathlib

/-!
Verification of the ARIMA tutorial notebook's two core functions: the
synthetic series generator `generate_arima_data` and the fit-and-forecast
driver `arima_data` (notebook `Section_1_Introduction_tutorial.ipynb`).

Real-valued samples are modelled as exact rationals.  The surface of the
external statistical library (seeded pseudo-random streams, the
stationarity/invertibility report of `ArmaProcess`, and the SARIMAX
maximum-likelihood estimator) is modelled as an explicit record of
deterministic functions, quantified over in the theorems; printing is
modelled as a list of log strings.
-/

/-- Running cumulative sum with an explicit accumulator; helper for the
embedding of `numpy.cumsum`. -/
def cumsumAux (acc : ℚ) : List ℚ → List ℚ
  | [] => []
  | x :: xs => (acc + x) :: cumsumAux (acc + x) xs

/-- Embedding of `numpy.cumsum` on a rational list: entry `i` of the result
is the sum of entries `0 .. i` of the input. -/
def cumsum (l : List ℚ) : List ℚ := cumsumAux 0 l

/-- Discrete backward difference with zero initial value: entry `i` of the
result is `l i - l (i-1)`, reading the entry before the start as `0`.  This
is the exact left inverse of `cumsum`. -/
def bdiff (l : List ℚ) : List ℚ := List.zipWith (fun u v => u - v) l (0 :: l)

/-- Modelled from the spec: the external ARMA-simulation routine
(`sm.tsa.arma_generate_sample`, not part of this repository).  Given the
full lag polynomials `ar = [1, -phi1, ...]` and `ma = [1, theta1, ...]` and
an innovation stream `e`, produce the first `t` values of the linear-filter
recursion `y t = sum_j ma_j * e (t-j) - sum_i ar_i * y (t-i)` (indices `i`
from 1, out-of-range terms read as 0, zero initial conditions). -/
def armaRec (ar ma : List ℚ) (e : ℕ → ℚ) : ℕ → List ℚ
  | 0 => []
  | t + 1 =>
    let prev := armaRec ar ma e t
    let maPart := ((List.range ma.length).map
      (fun j => ma.getD j 0 * (if j ≤ t then e (t - j) else 0))).sum
    let arPart := ((List.range (ar.length - 1)).map
      (fun i => ar.getD (i + 1) 0 * (if i + 1 ≤ t then prev.getD (t - (i + 1)) 0 else 0))).sum
    prev ++ [maPart - arPart]

/-- Modelled from the spec: `sm.tsa.arma_generate_sample(ar, ma, n_samp,
sigma, distrvs, burnin)` — scale the drawn innovations by `sigma`, simulate
the ARMA recursion for `n_samp + burnin` steps and discard the burn-in
prefix. -/
def armaSample (ar ma : List ℚ) (n_samp : ℕ) (sigma : ℚ) (distrvs : ℕ → ℚ)
    (burnin : ℕ) : List ℚ :=
  (armaRec ar ma (fun j => sigma * distrvs j) (n_samp + burnin)).drop burnin

/-- `ar = np.r_[1, -arparams]`: zero-lag 1 followed by the negated AR
coefficients. -/
def arPolyCoeffs (arparams : List ℚ) : List ℚ := 1 :: arparams.map (fun c => -c)

/-- `ma = np.r_[1, maparams]`: zero-lag 1 followed by the MA coefficients,
not negated. -/
def maPolyCoeffs (maparams : List ℚ) : List ℚ := 1 :: maparams

/-- Result of the external maximum-likelihood fit that the driver actually
consumes: the burn-in offset of the likelihood. -/
structure FitResult where
  loglikelihood_burn : ℕ
  deriving DecidableEq

/-- The arguments the driver hands to the `sm.tsa.SARIMAX` constructor. -/
structure SarimaxSpec where
  training : List ℚ
  order : ℕ × ℕ × ℕ
  trend : String
  enforce_stationarity : Bool
  enforce_invertibility : Bool
  deriving DecidableEq

/-- The external statistical library surface used by the notebook, as a
record of deterministic functions: `randnFamily s` is the standard-normal
stream of `np.random.RandomState(s).randn` (a fixed function of the seed),
`isstationary`/`isinvertible` are the advisory reports of
`sm.tsa.ArmaProcess`, and `fit` is the SARIMAX maximum-likelihood
estimation. -/
structure ExternalLib where
  randnFamily : ℕ → ℕ → ℚ
  isstationary : List ℚ → List ℚ → Bool
  isinvertible : List ℚ → List ℚ → Bool
  fit : SarimaxSpec → FitResult

/-- Embedding of `generate_arima_data`.  `entropy` models the stream a
fresh unseeded `np.random.RandomState()` would draw (used only when
`rng_state` is `none`).  Returns the generated series together with the
verbose log. -/
def generate_arima_data (lib : ExternalLib) (entropy : ℕ → ℚ)
    (arparams maparams : List ℚ) (i_order : ℕ) (n_samp : ℕ)
    (rng_state : Option (ℕ → ℚ)) (sigma : ℚ) (burnin : ℕ)
    (lin_trend : Option ℚ) (verbose : Bool) : List ℚ × List String :=
  let rng := rng_state.getD entropy
  let ar := arPolyCoeffs arparams
  let ma := maPolyCoeffs maparams
  let log := if verbose then
      ["Is the process stationary? " ++ toString (lib.isstationary ar ma),
       "Is the process invertible? " ++ toString (lib.isinvertible ar ma)]
    else []
  let y0 := armaSample ar ma n_samp sigma rng burnin
  let y1 := match lin_trend with
    | none => y0
    | some t => List.zipWith (fun u v => u + v) y0 (cumsum (List.replicate n_samp t))
  (cumsum^[i_order] y1, log)

/-- The keyword arguments of the driver `arima_data`, with the notebook's
default values.  `lin_trend = none` models Python `None`. -/
structure ArimaArgs where
  n_samp : ℕ := 120
  ar_order : ℕ := 0
  ar_lag1 : ℚ := 0
  ar_lag2 : ℚ := 0
  ar_lag3 : ℚ := 0
  ar_lag4 : ℚ := 0
  i_order : ℕ := 0
  ma_order : ℕ := 0
  ma_lag1 : ℚ := 0
  ma_lag2 : ℚ := 0
  ma_lag3 : ℚ := 0
  ma_lag4 : ℚ := 0
  rand_state : ℕ := 42
  ylim : ℚ := 5
  p : ℕ := 0
  d : ℕ := 0
  q : ℕ := 0
  n_train : ℕ := 108
  n_forecast : ℕ := 24
  dynamic : Bool := false
  lin_trend : Option ℚ := none
  verbose : Bool := true
  deriving DecidableEq

/-- `arparams = np.array([ar_lag1, ar_lag2, ar_lag3, ar_lag4])[:ar_order]`. -/
def driverArparams (a : ArimaArgs) : List ℚ :=
  [a.ar_lag1, a.ar_lag2, a.ar_lag3, a.ar_lag4].take a.ar_order

/-- `maparams = np.array([ma_lag1, ma_lag2, ma_lag3, ma_lag4])[:ma_order]`. -/
def driverMaparams (a : ArimaArgs) : List ℚ :=
  [a.ma_lag1, a.ma_lag2, a.ma_lag3, a.ma_lag4].take a.ma_order

/-- The driver's condition for fitting:
`(((ar_order > 0) and (ar_lag1 != 0)) or ((ma_order > 0) and (ma_lag1 != 0)))
and ((p > 0) or (q > 0))`. -/
def fittingGate (ar_order : ℕ) (ar_lag1 : ℚ) (ma_order : ℕ) (ma_lag1 : ℚ)
    (p q : ℕ) : Bool :=
  ((decide (0 < ar_order) && decide (ar_lag1 ≠ 0)) ||
    (decide (0 < ma_order) && decide (ma_lag1 ≠ 0))) &&
  (decide (0 < p) || decide (0 < q))

/-- The `trend` argument the driver passes to the SARIMAX constructor:
both branches of the workaround for the statsmodels trend defect assign
the string n. -/
def trendArg (lin_trend : Option ℚ) : String :=
  match lin_trend with
  | some t => if 0 < t then "n" else "n"
  | none => "n"

/-- The series the driver obtains: it seeds a pseudo-random generator from
`rand_state` and calls the generator with the truncated coefficient
vectors, `sigma = 1` and `burnin = 10` (the generator defaults). -/
def driverSeries (lib : ExternalLib) (entropy : ℕ → ℚ) (a : ArimaArgs) : List ℚ :=
  (generate_arima_data lib entropy (driverArparams a) (driverMaparams a)
    a.i_order a.n_samp (some (lib.randnFamily a.rand_state)) 1 10
    a.lin_trend a.verbose).1

/-- The verbose log of the generator call made by the driver. -/
def driverGenLog (lib : ExternalLib) (entropy : ℕ → ℚ) (a : ArimaArgs) : List String :=
  (generate_arima_data lib entropy (driverArparams a) (driverMaparams a)
    a.i_order a.n_samp (some (lib.randnFamily a.rand_state)) 1 10
    a.lin_trend a.verbose).2

/-- The SARIMAX constructor call the driver makes when fitting: training
prefix of `n_train` points, orders `(p, d, q)`, the forced trend argument,
and stationarity/invertibility enforcement disabled. -/
def driverSpec (lib : ExternalLib) (entropy : ℕ → ℚ) (a : ArimaArgs) : SarimaxSpec :=
  { training := (driverSeries lib entropy a).take a.n_train
    order := (a.p, a.d, a.q)
    trend := trendArg a.lin_trend
    enforce_stationarity := false
    enforce_invertibility := false }

/-- Everything the fitting branch of the driver computes: the constructor
call, the fit result, and the prediction request.  Dates are represented
as month offsets from the fixed origin 1990-01-01, so `df.index[k]` is `k`
and `df.index[n_train] + DateOffset(months = n_forecast - 1)` is
`n_train + (n_forecast - 1)`. -/
structure FitRecord where
  modelSpec : SarimaxSpec
  fitResult : FitResult
  predStart : ℤ
  predEnd : ℤ
  alpha : ℚ
  dynamic : Bool
  deriving DecidableEq

/-- The fitting branch: construct the model, fit it, and request the
prediction from `df.index[results.loglikelihood_burn]` through
`df.index[n_train] + DateOffset(months = n_forecast - 1)` with a
two-sided confidence interval at `alpha = 0.05`. -/
def driverFitRecord (lib : ExternalLib) (entropy : ℕ → ℚ) (a : ArimaArgs) : FitRecord :=
  { modelSpec := driverSpec lib entropy a
    fitResult := lib.fit (driverSpec lib entropy a)
    predStart := ((lib.fit (driverSpec lib entropy a)).loglikelihood_burn : ℤ)
    predEnd := (a.n_train : ℤ) + ((a.n_forecast : ℤ) - 1)
    alpha := 1 / 20
    dynamic := a.dynamic }

/-- The observable outcome of one driver invocation: the generated series,
the printed log (print statements abstracted to event tags), and the fit
data when fitting was triggered. -/
structure DriverOutput where
  series : List ℚ
  log : List String
  fit : Option FitRecord

/-- Embedding of the driver `arima_data`: generate the series, print the
parameter summary, and fit and predict exactly when the gate condition
holds. -/
def arima_data (lib : ExternalLib) (entropy : ℕ → ℚ) (a : ArimaArgs) : DriverOutput :=
  { series := driverSeries lib entropy a
    log := "Generated ARIMA orders" :: "Generated coefficients" ::
      driverGenLog lib entropy a ++
      (if fittingGate a.ar_order a.ar_lag1 a.ma_order a.ma_lag1 a.p a.q then
        ["Fit ARIMA orders"] else [])
    fit := if fittingGate a.ar_order a.ar_lag1 a.ma_order a.ma_lag1 a.p a.q then
        some (driverFitRecord lib entropy a)
      else none }

/-- Modelled from the spec: the forecast variance of the external
seasonal-ARIMA estimator for a fitted AR(1) model with coefficient
`phiHat` and innovation variance `sigma2`, `h` steps past the end of the
training window — `sigma2 * (1 + phiHat^2 + ... + phiHat^(2*(h-1)))`, the
structural autoregressive forecast-variance growth the spec describes.
The half-width of the two-sided confidence interval at a fixed level is a
fixed multiple of the square root of this quantity. -/
def ar1ForecastVariance (phiHat sigma2 : ℚ) (h : ℕ) : ℚ :=
  sigma2 * ∑ j ∈ Finset.range h, phiHat ^ (2 * j)

/-- A concrete instantiation of the external library surface, for
evaluating the embedding at specific inputs: zero pseudo-random streams,
constant advisory reports, and a fit whose likelihood burn-in is 2. -/
def sampleLib : ExternalLib :=
  { randnFamily := fun _ _ => 0
    isstationary := fun _ _ => true
    isinvertible := fun _ _ => true
    fit := fun _ => { loglikelihood_burn := 2 } }

/-- A concrete ambient-entropy stream (all zeros). -/
def zeroEntropy : ℕ → ℚ := fun _ => 0

/-- A second, different ambient-entropy stream (all ones). -/
def oneEntropy : ℕ → ℚ := fun _ => 1

/-- The end-to-end scenario arguments: AR coefficients `(0.5)`, no MA
coefficients, `d = 0`, `n = 120` samples, seed 42, model orders
`(1, 0, 0)`, 108 training points, 24 forecast steps (all remaining
fields at the notebook defaults). -/
def ar1Args : ArimaArgs := { ar_order := 1, ar_lag1 := 1 / 2, p := 1 }

/-- Driver arguments whose generation uses a nonzero AR coefficient at lag
2 (within the declared order 2) while the lag-1 coefficients are zero,
with model order `p = 1`. -/
def cexGateArgs : ArimaArgs := { ar_order := 2, ar_lag2 := 1 / 2, p := 1 }

/-- Driver arguments with nonzero coefficients both inside and beyond the
declared orders. -/
def c10Args : ArimaArgs :=
  { ar_order := 2, ar_lag1 := 1 / 2, ar_lag2 := 1 / 3, ar_lag3 := 7
    ma_order := 1, ma_lag1 := 1 / 5, ma_lag2 := 3 }

/-- Replace the eight lag-slider values of a driver argument record,
leaving every other field unchanged. -/
def withLags (a : ArimaArgs) (b1 b2 b3 b4 c1 c2 c3 c4 : ℚ) : ArimaArgs :=
  { a with
    ar_lag1 := b1
    ar_lag2 := b2
    ar_lag3 := b3
    ar_lag4 := b4
    ma_lag1 := c1
    ma_lag2 := c2
    ma_lag3 := c3
    ma_lag4 := c4 }

theorem cumsumAux_length (acc : ℚ) (l : List ℚ) : (cumsumAux acc l).length = l.length := by
  induction l generalizing acc with
  | nil => rfl
  | cons x xs ih => simp [cumsumAux, ih]

theorem cumsum_length (l : List ℚ) : (cumsum l).length = l.length :=
  cumsumAux_length 0 l

theorem cumsum_iterate_length (d : ℕ) (l : List ℚ) :
    (cumsum^[d] l).length = l.length := by
  induction d generalizing l with
  | zero => rfl
  | succ d ih => rw [Function.iterate_succ_apply, ih, cumsum_length]

theorem bdiff_cumsumAux (l : List ℚ) :
    ∀ acc : ℚ, List.zipWith (fun u v => u - v) (cumsumAux acc l) (acc :: cumsumAux acc l) = l := by
  induction l with
  | nil => intro acc; rfl
  | cons x xs ih =>
    intro acc
    simp only [cumsumAux, List.zipWith]
    rw [ih (acc + x)]
    congr 1
    ring

theorem bdiff_cumsum (l : List ℚ) : bdiff (cumsum l) = l := by
  simpa [bdiff, cumsum] using bdiff_cumsumAux l 0

theorem bdiff_iterate_cumsum_iterate (d : ℕ) (l : List ℚ) :
    bdiff^[d] (cumsum^[d] l) = l := by
  induction d generalizing l with
  | zero => rfl
  | succ d ih =>
    rw [Function.iterate_succ_apply, Function.iterate_succ_apply', bdiff_cumsum]
    exact ih l

theorem armaRec_length (ar ma : List ℚ) (e : ℕ → ℚ) (t : ℕ) :
    (armaRec ar ma e t).length = t := by
  induction t with
  | zero => rfl
  | succ t ih => simp [armaRec, ih]

theorem armaSample_length (ar ma : List ℚ) (n_samp : ℕ) (sigma : ℚ)
    (distrvs : ℕ → ℚ) (burnin : ℕ) :
    (armaSample ar ma n_samp sigma distrvs burnin).length = n_samp := by
  simp [armaSample, armaRec_length]

theorem generate_fst_length (lib : ExternalLib) (entropy : ℕ → ℚ)
    (arparams maparams : List ℚ) (i_order n_samp : ℕ)
    (rng_state : Option (ℕ → ℚ)) (sigma : ℚ) (burnin : ℕ)
    (lin_trend : Option ℚ) (verbose : Bool) :
    (generate_arima_data lib entropy arparams maparams i_order n_samp
      rng_state sigma burnin lin_trend verbose).1.length = n_samp := by
  unfold generate_arima_data
  cases lin_trend with
  | none => simp [cumsum_iterate_length, armaSample_length]
  | some t => simp [cumsum_iterate_length, armaSample_length, cumsum_length]

theorem arima_series_eq (lib : ExternalLib) (entropy : ℕ → ℚ) (a : ArimaArgs) :
    (arima_data lib entropy a).series = driverSeries lib entropy a := rfl

theorem arima_fit_eq (lib : ExternalLib) (entropy : ℕ → ℚ) (a : ArimaArgs) :
    (arima_data lib entropy a).fit =
      if fittingGate a.ar_order a.ar_lag1 a.ma_order a.ma_lag1 a.p a.q then
        some (driverFitRecord lib entropy a)
      else none := rfl

theorem arima_fit_isSome (lib : ExternalLib) (entropy : ℕ → ℚ) (a : ArimaArgs) :
    (arima_data lib entropy a).fit.isSome =
      fittingGate a.ar_order a.ar_lag1 a.ma_order a.ma_lag1 a.p a.q := by
  rw [arima_fit_eq]
  cases hg : fittingGate a.ar_order a.ar_lag1 a.ma_order a.ma_lag1 a.p a.q <;> simp [hg]

theorem arima_entropy_irrel (lib : ExternalLib) (e1 e2 : ℕ → ℚ) (a : ArimaArgs) :
    arima_data lib e1 a = arima_data lib e2 a := rfl

theorem fittingGate_eq_true_iff (ar_order : ℕ) (ar_lag1 : ℚ) (ma_order : ℕ)
    (ma_lag1 : ℚ) (p q : ℕ) :
    fittingGate ar_order ar_lag1 ma_order ma_lag1 p q = true ↔
      (((0 < ar_order ∧ ar_lag1 ≠ 0) ∨ (0 < ma_order ∧ ma_lag1 ≠ 0)) ∧
        (0 < p ∨ 0 < q)) := by
  simp [fittingGate]

theorem ar1Args_gate : fittingGate ar1Args.ar_order ar1Args.ar_lag1
    ar1Args.ma_order ar1Args.ma_lag1 ar1Args.p ar1Args.q = true := by
  rw [fittingGate_eq_true_iff]
  norm_num [ar1Args]

theorem getD_zipWith_add (l1 : List ℚ) :
    ∀ (l2 : List ℚ) (i : ℕ), i < l1.length → i < l2.length →
      (List.zipWith (fun u v => u + v) l1 l2).getD i 0 = l1.getD i 0 + l2.getD i 0 := by
  induction l1 with
  | nil => intro l2 i h1 _; exact absurd h1 (by simp)
  | cons x xs ih =>
    intro l2 i h1 h2
    cases l2 with
    | nil => exact absurd h2 (by simp)
    | cons y ys =>
      cases i with
      | zero => rfl
      | succ i =>
        simp only [List.zipWith, List.getD_cons_succ]
        exact ih ys i (by simpa using h1) (by simpa using h2)

theorem cumsumAux_replicate_getD (t : ℚ) (n : ℕ) :
    ∀ (acc : ℚ) (i : ℕ), i < n →
      (cumsumAux acc (List.replicate n t)).getD i 0 = acc + ((i : ℚ) + 1) * t := by
  induction n with
  | zero => intro acc i h; exact absurd h (by simp)
  | succ n ih =>
    intro acc i h
    rw [List.replicate_succ]
    cases i with
    | zero => simp [cumsumAux]
    | succ i =>
      simp only [cumsumAux, List.getD_cons_succ]
      rw [ih (acc + t) i (by omega)]
      push_cast
      ring

theorem cumsum_replicate_getD (t : ℚ) (n i : ℕ) (h : i < n) :
    (cumsum (List.replicate n t)).getD i 0 = ((i : ℚ) + 1) * t := by
  rw [cumsum, cumsumAux_replicate_getD t n 0 i h, zero_add]

theorem getD_take (l : List ℚ) : ∀ (k i : ℕ), i < k → (l.take k).getD i 0 = l.getD i 0 := by
  induction l with
  | nil => intro k i _; simp
  | cons x xs ih =>
    intro k i h
    cases k with
    | zero => omega
    | succ k =>
      cases i with
      | zero => rfl
      | succ i =>
        simp only [List.take, List.getD_cons_succ]
        exact ih k i (by omega)

theorem driverSeries_length (lib : ExternalLib) (e : ℕ → ℚ) (a : ArimaArgs) :
    (driverSeries lib e a).length = a.n_samp :=
  generate_fst_length lib e (driverArparams a) (driverMaparams a) a.i_order
    a.n_samp (some (lib.randnFamily a.rand_state)) 1 10 a.lin_trend a.verbose

theorem getD_map_neg (l : List ℚ) :
    ∀ i : ℕ, i < l.length → (l.map (fun c => -c)).getD i 0 = -(l.getD i 0) := by
  induction l with
  | nil => intro i h; exact absurd h (by simp)
  | cons x xs ih =>
    intro i h
    cases i with
    | zero => rfl
    | succ i =>
      simp only [List.map, List.getD_cons_succ]
      exact ih i (by simpa using h)

/-- Claim C3: for every integration order `d` and identical remaining
parameters, taking the discrete backward difference `d` times of the
generator's output with integration order `d` yields exactly the
generator's output with integration order 0 (for `d = 0` the difference
operator is applied zero times and the two sides coincide outright). -/
theorem integration_inverted_by_differencing (lib : ExternalLib) (entropy : ℕ → ℚ)
    (arparams maparams : List ℚ) (d n_samp : ℕ) (rng_state : Option (ℕ → ℚ))
    (sigma : ℚ) (burnin : ℕ) (lin_trend : Option ℚ) (verbose : Bool) :
    bdiff^[d] ((generate_arima_data lib entropy arparams maparams d n_samp
        rng_state sigma burnin lin_trend verbose).1)
      = (generate_arima_data lib entropy arparams maparams 0 n_samp
        rng_state sigma burnin lin_trend verbose).1 := by
  simp only [generate_arima_data, Function.iterate_zero_apply]
  exact bdiff_iterate_cumsum_iterate d _

/-- Claim C4: for every fixed seed and identical remaining parameters, two
invocations of the generation path (the driver seeds a fresh pseudo-random
generator from the seed, then calls the generator) produce identical
outputs whatever ambient entropy each invocation would otherwise have
drawn: the unseeded-generator fallback of `generate_arima_data` is never
exercised by the driver. -/
theorem seeded_invocations_identical (lib : ExternalLib) (e1 e2 : ℕ → ℚ)
    (a : ArimaArgs) : arima_data lib e1 a = arima_data lib e2 a :=
  arima_entropy_irrel lib e1 e2 a

/-- Claim C5: for every value of the linear-trend parameter, the trend
argument handed to the seasonal-ARIMA constructor is the string n — both
branches of the workaround assign it, so the setting is independent of
`lin_trend`. -/
theorem trend_argument_always_none :
    (∀ lt : Option ℚ, trendArg lt = "n") ∧
    ∀ (lib : ExternalLib) (e : ℕ → ℚ) (a : ArimaArgs) (r : FitRecord),
      (arima_data lib e a).fit = some r → r.modelSpec.trend = "n" := by
  have htrend : ∀ lt : Option ℚ, trendArg lt = "n" := by
    intro lt
    cases lt with
    | none => rfl
    | some t => by_cases h : 0 < t <;> simp [trendArg, h]
  refine ⟨htrend, ?_⟩
  intro lib e a r h
  rw [arima_fit_eq] at h
  by_cases hg : fittingGate a.ar_order a.ar_lag1 a.ma_order a.ma_lag1 a.p a.q = true
  · rw [if_pos hg] at h
    injection h with h2
    rw [← h2]
    exact htrend a.lin_trend
  · rw [if_neg hg] at h
    exact absurd h (by simp)

/-- Witness for claim C5: a run whose gate passes, with the trend argument
observed to be n. -/
theorem trend_argument_always_none_wit :
    ((arima_data sampleLib zeroEntropy ar1Args).fit.map fun r => r.modelSpec.trend)
      = some "n" := by
  have hg : fittingGate ar1Args.ar_order ar1Args.ar_lag1 ar1Args.ma_order
      ar1Args.ma_lag1 ar1Args.p ar1Args.q = true := by
    rw [fittingGate_eq_true_iff]
    norm_num [ar1Args]
  have hfit : (arima_data sampleLib zeroEntropy ar1Args).fit
      = some (driverFitRecord sampleLib zeroEntropy ar1Args) := by
    rw [arima_fit_eq, if_pos hg]
  rw [hfit, Option.map_some']
  exact congrArg some
    (trend_argument_always_none.2 sampleLib zeroEntropy ar1Args _ hfit)

/-- Claim C6: the generator assembles the AR polynomial coefficient vector
as `[1, -phi1, -phi2, ...]` and the MA polynomial coefficient vector as
`[1, theta1, theta2, ...]`, and invokes the ARMA simulation routine with
exactly these vectors. -/
theorem polynomial_sign_convention (phi theta : List ℚ) (lib : ExternalLib)
    (e : ℕ → ℚ) (n : ℕ) (rng : ℕ → ℚ) (sigma : ℚ) (burnin : ℕ) (verbose : Bool) :
    (arPolyCoeffs phi).length = phi.length + 1 ∧
    (arPolyCoeffs phi).getD 0 0 = 1 ∧
    (∀ i, i < phi.length → (arPolyCoeffs phi).getD (i + 1) 0 = -(phi.getD i 0)) ∧
    (maPolyCoeffs theta).length = theta.length + 1 ∧
    (maPolyCoeffs theta).getD 0 0 = 1 ∧
    (∀ i, i < theta.length → (maPolyCoeffs theta).getD (i + 1) 0 = theta.getD i 0) ∧
    (generate_arima_data lib e phi theta 0 n (some rng) sigma burnin none verbose).1
      = armaSample (arPolyCoeffs phi) (maPolyCoeffs theta) n sigma rng burnin := by
  refine ⟨by simp [arPolyCoeffs], rfl, ?_, by simp [maPolyCoeffs], rfl, ?_, rfl⟩
  · intro i hi
    simp only [arPolyCoeffs, List.getD_cons_succ]
    exact getD_map_neg phi i hi
  · intro i hi
    simp only [maPolyCoeffs, List.getD_cons_succ]

/-- Witness for claim C6: the assembled polynomials at concrete
coefficient vectors. -/
theorem polynomial_sign_convention_wit :
    (arPolyCoeffs [1 / 2, 1 / 3]).getD 2 0 = -(([1 / 2, 1 / 3] : List ℚ).getD 1 0) ∧
    (maPolyCoeffs [1 / 4]).getD 1 0 = ([1 / 4] : List ℚ).getD 0 0 := by
  constructor
  · exact (polynomial_sign_convention [1 / 2, 1 / 3] [1 / 4] sampleLib zeroEntropy
      0 zeroEntropy 1 0 false).2.2.1 1 (by decide)
  · exact (polynomial_sign_convention [1 / 2, 1 / 3] [1 / 4] sampleLib zeroEntropy
      0 zeroEntropy 1 0 false).2.2.2.2.2.1 0 (by decide)

theorem generate_trend_getD (lib : ExternalLib) (e : ℕ → ℚ)
    (arparams maparams : List ℚ) (n : ℕ) (rng_state : Option (ℕ → ℚ))
    (sigma : ℚ) (burnin : ℕ) (t : ℚ) (verbose : Bool) (i : ℕ) (h : i < n) :
    (generate_arima_data lib e arparams maparams 0 n rng_state sigma burnin
        (some t) verbose).1.getD i 0
      = (generate_arima_data lib e arparams maparams 0 n rng_state sigma burnin
        none verbose).1.getD i 0 + t * ((i : ℚ) + 1) := by
  simp only [generate_arima_data, Function.iterate_zero_apply]
  rw [getD_zipWith_add]
  · rw [cumsum_replicate_getD t n i h]
    ring
  · rw [armaSample_length]; exact h
  · rw [cumsum_length, List.length_replicate]; exact h

/-- Claim C7: stationarity/invertibility are only reported, never used to
reject inputs (the generated series and the fit data are unchanged under
any replacement of the advisory checkers and under any verbosity), and
whenever the gate passes the estimator is constructed with stationarity
and invertibility enforcement disabled and estimation is attempted
unconditionally. -/
theorem estimation_unconditional_advisory_only :
    (∀ (lib : ExternalLib) (e : ℕ → ℚ) (a : ArimaArgs) (r : FitRecord),
        (arima_data lib e a).fit = some r →
          r.modelSpec.enforce_stationarity = false ∧
          r.modelSpec.enforce_invertibility = false) ∧
    (∀ (lib : ExternalLib) (s iv : List ℚ → List ℚ → Bool) (e : ℕ → ℚ) (a : ArimaArgs),
        (arima_data { lib with isstationary := s, isinvertible := iv } e a).series
            = (arima_data lib e a).series ∧
        (arima_data { lib with isstationary := s, isinvertible := iv } e a).fit
            = (arima_data lib e a).fit) ∧
    (∀ (lib : ExternalLib) (e : ℕ → ℚ) (a : ArimaArgs) (v : Bool),
        (arima_data lib e { a with verbose := v }).series = (arima_data lib e a).series ∧
        (arima_data lib e { a with verbose := v }).fit = (arima_data lib e a).fit) ∧
    (∀ (lib : ExternalLib) (e : ℕ → ℚ) (a : ArimaArgs),
        fittingGate a.ar_order a.ar_lag1 a.ma_order a.ma_lag1 a.p a.q = true →
          (arima_data lib e a).fit.isSome = true) := by
  refine ⟨?_, ?_, ?_, ?_⟩
  · intro lib e a r h
    rw [arima_fit_eq] at h
    by_cases hg : fittingGate a.ar_order a.ar_lag1 a.ma_order a.ma_lag1 a.p a.q = true
    · rw [if_pos hg] at h
      injection h with h2
      rw [← h2]
      exact ⟨rfl, rfl⟩
    · rw [if_neg hg] at h
      exact absurd h (by simp)
  · intro lib s iv e a
    exact ⟨rfl, rfl⟩
  · intro lib e a v
    exact ⟨rfl, rfl⟩
  · intro lib e a hg
    rw [arima_fit_isSome]
    exact hg

/-- Witness for claim C7: a gate-passing run, with enforcement flags
observed disabled and estimation attempted. -/
theorem estimation_unconditional_advisory_only_wit :
    ((arima_data sampleLib zeroEntropy ar1Args).fit.map fun r =>
        (r.modelSpec.enforce_stationarity, r.modelSpec.enforce_invertibility))
      = some (false, false) ∧
    (arima_data sampleLib zeroEntropy ar1Args).fit.isSome = true := by
  have hg : fittingGate ar1Args.ar_order ar1Args.ar_lag1 ar1Args.ma_order
      ar1Args.ma_lag1 ar1Args.p ar1Args.q = true := by
    rw [fittingGate_eq_true_iff]
    norm_num [ar1Args]
  have hfit : (arima_data sampleLib zeroEntropy ar1Args).fit
      = some (driverFitRecord sampleLib zeroEntropy ar1Args) := by
    rw [arima_fit_eq, if_pos hg]
  constructor
  · have hps := estimation_unconditional_advisory_only.1 sampleLib zeroEntropy
      ar1Args _ hfit
    rw [hfit, Option.map_some', hps.1, hps.2]
  · exact estimation_unconditional_advisory_only.2.2.2 sampleLib zeroEntropy ar1Args hg

/-- Claim C8: whenever fitting proceeds, the prediction request starts at
the timeline index equal to the fit's likelihood burn-in offset and ends
at the date `n_train + n_forecast - 1` months after the fixed origin, and
the confidence interval is requested at `alpha = 0.05` (dates as month
offsets from the origin 1990-01-01). -/
theorem prediction_request_span (lib : ExternalLib) (e : ℕ → ℚ) (a : ArimaArgs)
    (r : FitRecord) (h : (arima_data lib e a).fit = some r) :
    r.predStart = (r.fitResult.loglikelihood_burn : ℤ) ∧
    r.fitResult = lib.fit r.modelSpec ∧
    r.predEnd = (a.n_train : ℤ) + ((a.n_forecast : ℤ) - 1) ∧
    r.alpha = 1 / 20 := by
  rw [arima_fit_eq] at h
  by_cases hg : fittingGate a.ar_order a.ar_lag1 a.ma_order a.ma_lag1 a.p a.q = true
  · rw [if_pos hg] at h
    injection h with h2
    rw [← h2]
    exact ⟨rfl, rfl, rfl, rfl⟩
  · rw [if_neg hg] at h
    exact absurd h (by simp)

/-- Witness for claim C8: in a gate-passing run with likelihood burn-in 2,
the prediction spans month offsets 2 through 108 + 24 - 1 = 131 at
`alpha = 1/20`. -/
theorem prediction_request_span_wit :
    ((arima_data sampleLib zeroEntropy ar1Args).fit.map fun r =>
        (r.predStart, r.predEnd, r.alpha)) = some ((2 : ℤ), (131 : ℤ), (1 / 20 : ℚ)) := by
  have hg : fittingGate ar1Args.ar_order ar1Args.ar_lag1 ar1Args.ma_order
      ar1Args.ma_lag1 ar1Args.p ar1Args.q = true := by
    rw [fittingGate_eq_true_iff]
    norm_num [ar1Args]
  have hfit : (arima_data sampleLib zeroEntropy ar1Args).fit
      = some (driverFitRecord sampleLib zeroEntropy ar1Args) := by
    rw [arima_fit_eq, if_pos hg]
  have h := prediction_request_span sampleLib zeroEntropy ar1Args _ hfit
  rw [hfit, Option.map_some', h.1, h.2.2.1, h.2.2.2]
  norm_num [driverFitRecord, sampleLib, ar1Args]

/-- Claim C1 (amended): fitting proceeds if and only if
((ar_order > 0 and the lag-1 AR coefficient is nonzero) or
(ma_order > 0 and the lag-1 MA coefficient is nonzero)) and
(p > 0 or q > 0) — the gate consults only the lag-1 coefficients, not all
coefficients up to the declared orders. -/
theorem fit_gate_uses_only_lag1 (lib : ExternalLib) (e : ℕ → ℚ) (a : ArimaArgs) :
    (arima_data lib e a).fit.isSome = true ↔
      (((0 < a.ar_order ∧ a.ar_lag1 ≠ 0) ∨ (0 < a.ma_order ∧ a.ma_lag1 ≠ 0)) ∧
        (0 < a.p ∨ 0 < a.q)) := by
  rw [arima_fit_isSome]
  exact fittingGate_eq_true_iff a.ar_order a.ar_lag1 a.ma_order a.ma_lag1 a.p a.q

/-- Counterexample to claim C1 as stated: at `cexGateArgs` generation uses
the nonzero AR coefficient 1/2 at lag 2 (within the declared order 2) and
`p = 1 > 0`, so the claim requires a fit, yet no model is fit. -/
theorem fit_gate_claim_counterexample :
    (driverArparams cexGateArgs).getD 1 0 ≠ 0 ∧
    0 < cexGateArgs.p ∧
    (arima_data sampleLib zeroEntropy cexGateArgs).fit.isSome = false := by
  refine ⟨by norm_num [driverArparams, cexGateArgs], by norm_num [cexGateArgs], ?_⟩
  rw [arima_fit_isSome, Bool.eq_false_iff]
  intro h
  rw [fittingGate_eq_true_iff] at h
  norm_num [cexGateArgs] at h

/-- Claim C2 (amended): when a linear trend slope `t` is specified, the
value added to the sample at step index `i` (before any integration step)
is `t * (i + 1)` — the cumulative ramp includes the current step, so the
first sample is offset by `t` and the last by `t * n`. -/
theorem trend_ramp_offset (lib : ExternalLib) (e : ℕ → ℚ)
    (arparams maparams : List ℚ) (n : ℕ) (rng_state : Option (ℕ → ℚ))
    (sigma : ℚ) (burnin : ℕ) (t : ℚ) (verbose : Bool) (i : ℕ) (h : i < n) :
    (generate_arima_data lib e arparams maparams 0 n rng_state sigma burnin
        (some t) verbose).1.getD i 0
      = (generate_arima_data lib e arparams maparams 0 n rng_state sigma burnin
        none verbose).1.getD i 0 + t * ((i : ℚ) + 1) :=
  generate_trend_getD lib e arparams maparams n rng_state sigma burnin t verbose i h

/-- Witness for claim C2 (amended): at step index 1 of a 2-sample series
with slope 1, the added value is `1 * (1 + 1)`. -/
theorem trend_ramp_offset_wit :
    (generate_arima_data sampleLib zeroEntropy [] [] 0 2 (some zeroEntropy) 1 0
        (some 1) false).1.getD 1 0
      = (generate_arima_data sampleLib zeroEntropy [] [] 0 2 (some zeroEntropy) 1 0
        none false).1.getD 1 0 + 1 * (((1 : ℕ) : ℚ) + 1) :=
  trend_ramp_offset sampleLib zeroEntropy [] [] 2 (some zeroEntropy) 1 0 1 false 1
    (by decide)

/-- Counterexample to claim C2 as stated: at step index 0 with slope 1 the
claim predicts an added value of `1 * 0 = 0`, but the generator adds 1. -/
theorem trend_ramp_claim_counterexample :
    ¬ ((generate_arima_data sampleLib zeroEntropy [] [] 0 2 (some zeroEntropy) 1 0
        (some 1) false).1.getD 0 0
      = (generate_arima_data sampleLib zeroEntropy [] [] 0 2 (some zeroEntropy) 1 0
        none false).1.getD 0 0 + 1 * ((0 : ℕ) : ℚ)) := by
  intro hclaim
  have hadd := generate_trend_getD sampleLib zeroEntropy [] [] 2 (some zeroEntropy)
    1 0 1 false 0 (by decide)
  rw [hadd] at hclaim
  norm_num at hclaim

/-- Claim C10: for declared orders at most 4, the coefficient vectors the
driver passes to the generator are exactly the first `ar_order` (resp.
`ma_order`) entries of the four lag sliders — so their lengths equal the
declared orders — and lag-slider values beyond the declared orders never
influence the generated series. -/
theorem lag_sliders_truncated (a : ArimaArgs) (h1 : a.ar_order ≤ 4)
    (h2 : a.ma_order ≤ 4) :
    (driverArparams a).length = a.ar_order ∧
    (driverMaparams a).length = a.ma_order ∧
    (∀ i, i < a.ar_order →
      (driverArparams a).getD i 0
        = [a.ar_lag1, a.ar_lag2, a.ar_lag3, a.ar_lag4].getD i 0) ∧
    (∀ i, i < a.ma_order →
      (driverMaparams a).getD i 0
        = [a.ma_lag1, a.ma_lag2, a.ma_lag3, a.ma_lag4].getD i 0) ∧
    (∀ (lib : ExternalLib) (e : ℕ → ℚ) (b1 b2 b3 b4 c1 c2 c3 c4 : ℚ),
      List.take a.ar_order [b1, b2, b3, b4]
          = List.take a.ar_order [a.ar_lag1, a.ar_lag2, a.ar_lag3, a.ar_lag4] →
      List.take a.ma_order [c1, c2, c3, c4]
          = List.take a.ma_order [a.ma_lag1, a.ma_lag2, a.ma_lag3, a.ma_lag4] →
      (arima_data lib e (withLags a b1 b2 b3 b4 c1 c2 c3 c4)).series
        = (arima_data lib e a).series) := by
  refine ⟨?_, ?_, ?_, ?_, ?_⟩
  · simp only [driverArparams, List.length_take, List.length_cons, List.length_nil]
    omega
  · simp only [driverMaparams, List.length_take, List.length_cons, List.length_nil]
    omega
  · intro i hi
    exact getD_take [a.ar_lag1, a.ar_lag2, a.ar_lag3, a.ar_lag4] a.ar_order i hi
  · intro i hi
    exact getD_take [a.ma_lag1, a.ma_lag2, a.ma_lag3, a.ma_lag4] a.ma_order i hi
  · intro lib e b1 b2 b3 b4 c1 c2 c3 c4 hta htm
    rw [arima_series_eq, arima_series_eq]
    simp only [withLags, driverSeries, driverArparams, driverMaparams]
    rw [hta, htm]

/-- Witness for claim C10: changing only the lag-3, lag-4 and lag-2 MA
sliders beyond the declared orders (2, 1) leaves the generated series
unchanged. -/
theorem lag_sliders_truncated_wit :
    (arima_data sampleLib zeroEntropy
        (withLags c10Args (1 / 2) (1 / 3) 9 1 (1 / 5) 8 3 0)).series
      = (arima_data sampleLib zeroEntropy c10Args).series :=
  (lag_sliders_truncated c10Args (by decide) (by decide)).2.2.2.2 sampleLib
    zeroEntropy (1 / 2) (1 / 3) 9 1 (1 / 5) 8 3 0
    (by norm_num [c10Args]) (by norm_num [c10Args])

/-- Claim C9: at the end-to-end scenario arguments (AR coefficients (0.5),
no MA coefficients, d = 0, n = 120, seed 42), the generator produces one
determinate 120-value sequence (independent of ambient entropy), an
AR(1) model (orders (1,0,0)) is fit to its first 108 values, and the
two-sided confidence-interval width — a fixed multiple of the square root
of the modelled forecast variance — is non-decreasing across the forecast
horizon for every fitted coefficient and every non-negative fitted
innovation variance. -/
theorem ar1_end_to_end (lib : ExternalLib) (e1 e2 : ℕ → ℚ) (phiHat sigma2 : ℚ)
    (h1 h2 : ℕ) (hh : h1 ≤ h2) (hs : 0 ≤ sigma2) :
    (arima_data lib e1 ar1Args).series = (arima_data lib e2 ar1Args).series ∧
    (arima_data lib e1 ar1Args).series.length = 120 ∧
    (∃ r, (arima_data lib e1 ar1Args).fit = some r ∧
      r.modelSpec.order = (1, 0, 0) ∧ r.modelSpec.training.length = 108) ∧
    Real.sqrt ((ar1ForecastVariance phiHat sigma2 h1 : ℚ) : ℝ)
      ≤ Real.sqrt ((ar1ForecastVariance phiHat sigma2 h2 : ℚ) : ℝ) := by
  refine ⟨congrArg DriverOutput.series (arima_entropy_irrel lib e1 e2 ar1Args),
    ?_, ?_, ?_⟩
  · rw [arima_series_eq, driverSeries_length]
    rfl
  · refine ⟨driverFitRecord lib e1 ar1Args, ?_, rfl, ?_⟩
    · rw [arima_fit_eq, if_pos ar1Args_gate]
    · simp only [driverFitRecord, driverSpec]
      rw [List.length_take, driverSeries_length]
      norm_num [ar1Args]
  · have hsum : ∑ j ∈ Finset.range h1, phiHat ^ (2 * j)
        ≤ ∑ j ∈ Finset.range h2, phiHat ^ (2 * j) := by
      apply Finset.sum_le_sum_of_subset_of_nonneg (Finset.range_subset.mpr hh)
      intro j hj hnj
      rw [pow_mul]
      exact pow_nonneg (sq_nonneg phiHat) j
    have hq : ar1ForecastVariance phiHat sigma2 h1
        ≤ ar1ForecastVariance phiHat sigma2 h2 :=
      mul_le_mul_of_nonneg_left hsum hs
    exact Real.sqrt_le_sqrt (by exact_mod_cast hq)

/-- Witness for claim C9: the instantiation at a concrete library,
entropy streams, fitted parameters (1/2, 1) and horizon steps 3 ≤ 5. -/
theorem ar1_end_to_end_wit :
    ((arima_data sampleLib zeroEntropy ar1Args).series
        = (arima_data sampleLib oneEntropy ar1Args).series) ∧
    (arima_data sampleLib zeroEntropy ar1Args).series.length = 120 ∧
    (∃ r, (arima_data sampleLib zeroEntropy ar1Args).fit = some r ∧
      r.modelSpec.order = (1, 0, 0) ∧ r.modelSpec.training.length = 108) ∧
    Real.sqrt ((ar1ForecastVariance (1 / 2) 1 3 : ℚ) : ℝ)
      ≤ Real.sqrt ((ar1ForecastVariance (1 / 2) 1 5 : ℚ) : ℝ) :=
  ar1_end_to_end sampleLib zeroEntropy oneEntropy (1 / 2) 1 3 5 (by decide)
    (by norm_num)
